import Mathlib

/-!
Verification of the ARES cognitive core: the Memory Stream
(src/src/agents/memory.py), the self-correcting generation protocol of
DrMatrix (src/src/agents/matrix.py), and the evidentiary fact-check gate
of Researcher.discuss_with (src/src/agents/researcher.py).

The Python code is shallowly embedded:
* Python strings are Lean `String`s, but every Python string operation
  (`strip`, `lower`, `upper`, `startswith`, `endswith`, `in`, `split`,
  `replace`) is re-implemented over `List Char` so that every definition
  is executable by kernel reduction.
* Python floats are embedded as `ℚ` (the code only parses, stores and
  compares these numbers; no float rounding is relevant to any claim).
* `datetime` values are embedded as integer timestamps (`Int`); the code
  only compares them and passes them through.
* Fallible collaborator calls (Redis, Postgres) return `Except String`;
  a Python `try/except` block is a `match` on that result.
* The generative client `LLM.generate` catches all of its own exceptions
  and returns `""` on failure (src/src/agents/llm.py), so it is embedded
  as a total function `String → String`; likewise `LLM.get_embedding`
  returns `[]` on failure and is a total `String → List ℚ`.
-/

/-! ### Python string primitives over `List Char` -/

/-- Lower-case one ASCII character (model of Python `str.lower` per char). -/
def lowerChar (c : Char) : Char :=
  if 65 ≤ c.toNat ∧ c.toNat ≤ 90 then Char.ofNat (c.toNat + 32) else c

/-- Upper-case one ASCII character (model of Python `str.upper` per char). -/
def upperChar (c : Char) : Char :=
  if 97 ≤ c.toNat ∧ c.toNat ≤ 122 then Char.ofNat (c.toNat - 32) else c

/-- Whitespace characters stripped by Python `str.strip()`. -/
def isPyWS (c : Char) : Bool :=
  c == ' ' || c == '\t' || c == '\n' || c == '\r' || c == '\x0b' || c == '\x0c'

/-- Drop leading whitespace. -/
def dropLeadWS : List Char → List Char
  | [] => []
  | c :: r => if isPyWS c then dropLeadWS r else c :: r

/-- Model of Python `str.strip()` on a character list. -/
def stripList (l : List Char) : List Char :=
  (dropLeadWS (dropLeadWS l).reverse).reverse

/-- Is `p` an initial segment of `l`? (model of Python `str.startswith`). -/
def listIsInit (p l : List Char) : Bool :=
  match p, l with
  | [], _ => true
  | _ :: _, [] => false
  | a :: p2, b :: l2 => a == b && listIsInit p2 l2

/-- Does `hay` contain `needle` as a contiguous segment?
(model of Python `needle in hay`). -/
def containsSeg (needle : List Char) : List Char → Bool
  | [] => needle.isEmpty
  | c :: rest => listIsInit needle (c :: rest) || containsSeg needle rest

/-- Split a character list on a separator character (model of Python
`str.split(sep)` for a one-character separator, which is the only form the
embedded code uses). -/
def splitOnChar (sep : Char) : List Char → List (List Char)
  | [] => [[]]
  | c :: rest =>
    if c = sep then [] :: splitOnChar sep rest
    else
      match splitOnChar sep rest with
      | [] => [[c]]
      | h :: t => (c :: h) :: t

/-- Everything after the first occurrence of `sep` (model of Python
`s.split(sep, 1)[1]`; the code only calls it on lines already known to
contain `sep`, so the all-missing case returning `[]` is never hit). -/
def afterFirst (sep : Char) : List Char → List Char
  | [] => []
  | c :: rest => if c = sep then rest else afterFirst sep rest

/-- Remove every occurrence of one character (model of Python
`s.replace(x, "")` for a one-character pattern). -/
def removeChar (x : Char) (l : List Char) : List Char :=
  l.filter (fun c => !(c == x))

/-- Python `s.strip()`. -/
def pyStrip (s : String) : String := ⟨stripList s.data⟩

/-- Python `s.lower()` (ASCII; the embedded comparisons only involve ASCII). -/
def pyLower (s : String) : String := ⟨s.data.map lowerChar⟩

/-- Python `s.upper()` (ASCII). -/
def pyUpper (s : String) : String := ⟨s.data.map upperChar⟩

/-- Python `s.startswith(t)`. -/
def pyStarts (s t : String) : Bool := listIsInit t.data s.data

/-- Python `s.endswith(t)`. -/
def pyEnds (s t : String) : Bool := listIsInit t.data.reverse s.data.reverse

/-- Python `needle in hay` on strings. -/
def pyContains (hay needle : String) : Bool := containsSeg needle.data hay.data

/-- Python `len(s)` (counts code points, as `List Char` length does). -/
def pyLen (s : String) : Nat := s.data.length

/-- Python `"\n".join(lines)`. -/
def joinLines : List String → String
  | [] => ""
  | [x] => x
  | x :: y :: t => x ++ "\n" ++ joinLines (y :: t)

/-! ### Python `float()` on the decimal forms the code can meet

Model of the Python `float(s)` builtin restricted to optionally
signed decimal literals (`"7"`, `"5.0"`, `".5"`, `"3."`). Exponent, infinity
and nan forms are omitted: no claim depends on them, and the importance
prompt asks for a bare 1-10 rating. `none` models the `ValueError` that the
caller catches. -/

/-- Is `c` an ASCII digit? -/
def isDigitCh (c : Char) : Bool := 48 ≤ c.toNat && c.toNat ≤ 57

/-- Numeric value of a digit list, most significant first. -/
def digitsVal (l : List Char) : Nat :=
  l.foldl (fun a c => a * 10 + (c.toNat - 48)) 0

/-- Parse an unsigned decimal literal. -/
def parseUnsignedDec (s : List Char) : Option ℚ :=
  let intPart := s.takeWhile isDigitCh
  let rest := s.dropWhile isDigitCh
  match rest with
  | [] => if intPart.isEmpty then none else some (digitsVal intPart : ℚ)
  | '.' :: frac =>
    if frac.all isDigitCh && !(intPart.isEmpty && frac.isEmpty) then
      some ((digitsVal intPart : ℚ) + (digitsVal frac : ℚ) / (10 ^ frac.length : ℚ))
    else none
  | _ => none

/-- Model of Python `float(s)` (decimal forms): strips whitespace, handles an
optional sign, returns `none` where Python raises `ValueError`. -/
def parsePyFloat (s : String) : Option ℚ :=
  match stripList s.data with
  | '+' :: rest => parseUnsignedDec rest
  | '-' :: rest => (parseUnsignedDec rest).map Neg.neg
  | t => parseUnsignedDec t

/-! ### Memory Stream (src/src/agents/memory.py) -/

/-- Embedding of `MemoryObject` (memory.py, the dataclass): `creation_time`
and `last_accessed` are integer timestamps, `importance` and the embedding
components are the rationals standing for the Python floats. -/
structure MemoryObject where
  description : String
  creation_time : Int
  importance : ℚ
  embedding : List ℚ
  last_accessed : Int
deriving DecidableEq

/-- Embedding of the generative client (src/src/agents/llm.py). Both methods
catch every exception internally: `generate` returns `""` on failure and
`get_embedding` returns `[]`, so both are total functions here; a concrete
`LLMClient` value fixes what the model answers on each prompt. -/
structure LLMClient where
  generate : String → String
  get_embedding : String → List ℚ

/-- One document returned by the Redis KNN search (the fields
`retrieve` reads back: description, importance, created_at, score). -/
structure RedisDoc where
  description : String
  importance : ℚ
  created_at : Int
  score : ℚ

/-- Embedding of the vector-capable cache (the Redis client as used by
`MemoryStream`). `hset` is the write-through of `add_memory` step 5 — the
fresh `uuid4` key only namespaces the hash and is absorbed into the
collaborator — and `knn_search` is the `ft(...).search` call of `retrieve`.
`Except.error` models a raised exception. -/
structure VectorCache where
  hset : String → ℚ → Int → List ℚ → Except String Unit
  knn_search : List ℚ → Nat → Except String (List RedisDoc)

/-- Embedding of the durable store handle (src/src/database/connection.py).
`insertMemory` is the INSERT the real `save_memory` issues; `Except.error`
models a raised database exception. -/
structure Database where
  demo_mode : Bool
  insertMemory : String → String → ℚ → List ℚ → Int → Int → Except String Unit

/-- Embedding of `Database.save_memory` (connection.py lines 131-147): demo
mode skips the insert; otherwise the insert runs under `try/except` and a
failure is logged (`"Error saving memory: ..."`), never re-raised. The
returned list holds the log lines it printed. -/
def Database.save_memory (db : Database) (agent_name description : String)
    (importance : ℚ) (embedding : List ℚ) (created_at last_accessed : Int) :
    List String :=
  if db.demo_mode then []
  else
    match db.insertMemory agent_name description importance embedding
        created_at last_accessed with
    | Except.ok _ => []
    | Except.error e => ["Error saving memory: " ++ e]

/-- Embedding of `MemoryStream` (memory.py): the generative client, the
optional Redis handle, the optional durable store, the agent name used to
namespace keys, and the in-process list `self.memories`. -/
structure MemoryStream where
  llm : LLMClient
  redis : Option VectorCache
  db : Option Database
  agent_name : String
  memories : List MemoryObject

/-- The importance prompt of `MemoryStream._calculate_importance`. -/
def importancePrompt (description : String) : String :=
  "Rate the importance of this memory (1-10): " ++ description ++
    ". Return number only."

/-- Embedding of `MemoryStream._calculate_importance` (memory.py 145-151):
one temperature-zero `generate` call, then `float(response.strip())`; the
`except` clause returns 5.0 on any parse failure. -/
def calcImportance (llm : LLMClient) (description : String) : ℚ :=
  match parsePyFloat (pyStrip (llm.generate (importancePrompt description))) with
  | some v => v
  | none => 5

/-- The `MemoryObject` that `add_memory(description, time)` constructs in its
step 3 (importance from the model, embedding from the provider, creation and
last-accessed both set to the caller's `time`). -/
def LLMClient.freshMemory (llm : LLMClient) (description : String) (time : Int) :
    MemoryObject :=
  ⟨description, time, calcImportance llm description,
    llm.get_embedding description, time⟩

/-- The method form of `_calculate_importance` on the stream. -/
def MemoryStream.calculate_importance (s : MemoryStream) (description : String) : ℚ :=
  calcImportance s.llm description

/-- Embedding of `MemoryStream.add_memory` (memory.py 96-143): compute
importance and embedding, append to the in-process list under the lock, then
best-effort write-through to Redis (the `try/except` logs
`"Redis save failed: ..."`) and to the durable store (whose `save_memory`
swallows its own failures). The result is `Except` so that an exception
escaping to the caller would be visible as `Except.error`; the returned list
holds the log lines printed for swallowed failures. -/
def MemoryStream.add_memory (s : MemoryStream) (description : String)
    (time : Int) : Except String (MemoryStream × List String) :=
  let importance := calcImportance s.llm description
  let embedding := s.llm.get_embedding description
  let memory : MemoryObject := ⟨description, time, importance, embedding, time⟩
  let newMemories := s.memories ++ [memory]
  let redisLog : List String :=
    match s.redis with
    | none => []
    | some cache =>
      match cache.hset description importance time embedding with
      | Except.ok _ => []
      | Except.error e => ["Redis save failed: " ++ e]
  let dbLog : List String :=
    match s.db with
    | none => []
    | some db =>
      db.save_memory s.agent_name description importance embedding time time
  Except.ok ({ s with memories := newMemories }, redisLog ++ dbLog)

/-- Run `add_memory` for its state change (callers in the source ignore the
return value; the `Except.error` arm is unreachable and keeps the old state). -/
def applyAdd (s : MemoryStream) (description : String) (time : Int) :
    MemoryStream :=
  match s.add_memory description time with
  | Except.ok (s2, _) => s2
  | Except.error _ => s

/-- A whole sequence of `add_memory` calls, in order. -/
def MemoryStream.addAll (s : MemoryStream) (items : List (String × Int)) :
    MemoryStream :=
  items.foldl (fun st it => applyAdd st it.1 it.2) s

/-- Embedding of `MemoryStream.get_recent` (memory.py 205-208):
`sorted(self.memories, key=lambda m: m.creation_time, reverse=True)[:n]`.
Python's `sorted` is a stable sort; with `reverse=True` it orders by
descending key and keeps insertion order among equal keys, which is exactly
`mergeSort` with the relation `b.creation_time ≤ a.creation_time`. -/
def MemoryStream.get_recent (s : MemoryStream) (n : Nat) : List MemoryObject :=
  (s.memories.mergeSort
    (fun a b => decide (b.creation_time ≤ a.creation_time))).take n

/-- Embedding of `MemoryStream.retrieve` (memory.py 153-193): without a Redis
handle fall back to `get_recent`; otherwise embed the query and run the KNN
search, rebuilding lightweight records (empty embedding, `last_accessed` set
to the query time) from the returned documents; any search failure falls back
to `get_recent` (the enclosing `try/except`). -/
def MemoryStream.retrieve (s : MemoryStream) (query : String) (time : Int)
    (top_k : Nat) : List MemoryObject :=
  match s.redis with
  | none => s.get_recent top_k
  | some cache =>
    let query_embedding := s.llm.get_embedding query
    match cache.knn_search query_embedding top_k with
    | Except.ok docs =>
      docs.map (fun doc =>
        ⟨doc.description, doc.created_at, doc.importance, [], time⟩)
    | Except.error _ => s.get_recent top_k

/-! ### DrMatrix self-correcting generation protocol (src/src/agents/matrix.py)

`extract_claims` passes JSON between its steps as strings; the structured
payload those strings carry is embedded directly as a list of parsed
entries. `_generate_draft` and `_refine_draft` each end with
`self._extract_json(response)`, so their composition with the generative
call is embedded as a collaborator function that already returns the parsed
record list; `_audit_draft` returns the raw critique text, as in the source.
The decision (`if "PASS" in critique`), the refine call and the
deterministic post-processing pass are embedded exactly. -/

/-- The `epistemic_check` object of one extracted record: the five fields
`_enforce_deterministic_logic` reads or writes. A missing key is `none`
(`check.get(..., "")` then yields `""`, as in the source); the claims under
verification only concern records whose field values are JSON strings. -/
structure EpistemicCheck where
  title_claim_type : Option String
  study_design_type : Option String
  intervention_type : Option String
  data_source_type : Option String
  gap_severity : Option String
deriving DecidableEq

/-- The `epistemic_check` key of an entry, as `_enforce_deterministic_logic`
sees it: absent, present but not a JSON object, or a proper object. -/
inductive CheckField where
  | missing : CheckField
  | nonDictVal : CheckField
  | dictVal : EpistemicCheck → CheckField
deriving DecidableEq

/-- One element of the parsed JSON list: either not an object at all (the
loop skips it with `continue`) or an object with an `epistemic_check` key
state and its remaining fields (study_citation, narratives, ... — carried
opaquely, the pass never touches them). -/
inductive JEntry where
  | nonDict : String → JEntry
  | record : CheckField → List (String × String) → JEntry
deriving DecidableEq

/-- The empty check the source substitutes (`check = {}`) when
`epistemic_check` is absent or not an object. -/
def emptyCheck : EpistemicCheck := ⟨none, none, none, none, none⟩

/-- The rule cascade of `_enforce_deterministic_logic` (matrix.py 98-117) on
one `epistemic_check` object: the four lower-cased field reads and the four
`if/elif` severity overrides, in source order. -/
def enforceCheck (check : EpistemicCheck) : EpistemicCheck :=
  let claim := pyLower (check.title_claim_type.getD "")
  let design := pyLower (check.study_design_type.getD "")
  let intervention := pyLower (check.intervention_type.getD "")
  let data_source := pyLower (check.data_source_type.getD "")
  if pyContains intervention "behavioral" && pyContains data_source "self-reported" then
    { check with gap_severity := some "High" }
  else if pyContains claim "associat" && pyContains design "observational" then
    { check with gap_severity := some "Low" }
  else if pyContains claim "causal" && pyContains design "observational" then
    { check with gap_severity := some "High" }
  else if pyContains design "rct" || pyContains design "random" then
    { check with gap_severity := some "Low" }
  else check

/-- The per-entry body of the `_enforce_deterministic_logic` loop: non-object
entries are skipped; when `epistemic_check` is absent the source mutates a
fresh dict that is never written back into the entry, so the entry is
unchanged; when it is present but not an object it is replaced by a fresh
(empty) object which then receives the severity writes. -/
def enforceEntry : JEntry → JEntry
  | JEntry.nonDict raw => JEntry.nonDict raw
  | JEntry.record CheckField.missing rest => JEntry.record CheckField.missing rest
  | JEntry.record CheckField.nonDictVal rest =>
      JEntry.record (CheckField.dictVal (enforceCheck emptyCheck)) rest
  | JEntry.record (CheckField.dictVal c) rest =>
      JEntry.record (CheckField.dictVal (enforceCheck c)) rest

/-- Embedding of `DrMatrix._enforce_deterministic_logic` on the parsed list
(the surrounding `_extract_json`/`json.loads`/`json.dumps` round-trip is the
identity on an already-parsed record list). -/
def enforce_deterministic_logic (data : List JEntry) : List JEntry :=
  data.map enforceEntry

/-- Embedding of a `DrMatrix` instance: its three generative collaborators.
`draftFn` is `_generate_draft` (generate + `_extract_json`), `auditFn` is
`_audit_draft` (raw critique text; `""` is the failure value of
`LLM.generate`), `refineFn` is `_refine_draft` (generate + `_extract_json`)
taking the draft, the critique and the source chunk. -/
structure DrMatrix where
  draftFn : String → List JEntry
  auditFn : List JEntry → String → String
  refineFn : List JEntry → String → String → List JEntry

/-- Embedding of `DrMatrix.extract_claims` (matrix.py 11-30): draft, audit,
then either the accept path (critique contains `"PASS"`) or the refine path;
both ends run the deterministic post-processing. The second component counts
how many times the refine collaborator was invoked. -/
def DrMatrix.extract_claims (m : DrMatrix) (text_chunk : String) :
    List JEntry × Nat :=
  let draft_json := m.draftFn text_chunk
  let critique := m.auditFn draft_json text_chunk
  if pyContains critique "PASS" then
    (enforce_deterministic_logic draft_json, 0)
  else
    let refined_json := m.refineFn draft_json critique text_chunk
    (enforce_deterministic_logic refined_json, 1)

/-- The record list `extract_claims` feeds into the deterministic
post-processing pass: the draft on the accept path, the refine output
otherwise. -/
def DrMatrix.selectedOutput (m : DrMatrix) (text_chunk : String) :
    List JEntry :=
  if pyContains (m.auditFn (m.draftFn text_chunk) text_chunk) "PASS" then
    m.draftFn text_chunk
  else
    m.refineFn (m.draftFn text_chunk)
      (m.auditFn (m.draftFn text_chunk) text_chunk) text_chunk

/-! ### Evidentiary gate and commit decision (src/src/agents/researcher.py) -/

/-- The loop state of the fact-check parser in `discuss_with`
(researcher.py 691-694): current status, collected evidence lines, and the
"inside the Evidence section" flag. -/
structure FCState where
  status : String
  evidence_lines : List String
  parsing_evidence : Bool

/-- One iteration of the parsing loop (researcher.py 696-708): a `Status:`
line sets the status (after-colon part, stripped, upper-cased, brackets and
periods removed) and leaves evidence capture; an `Evidence:` line starts
capture and keeps its after-colon content when non-empty; any further line
during capture is appended stripped. -/
def processLine (st : FCState) (line : String) : FCState :=
  let clean_line := pyStrip line
  if pyStarts clean_line "Status:" then
    let status_part := pyUpper (pyStrip ⟨afterFirst ':' clean_line.data⟩)
    let status : String :=
      ⟨removeChar '.' (removeChar ']' (removeChar '[' status_part.data))⟩
    ⟨status, st.evidence_lines, false⟩
  else if pyStarts clean_line "Evidence:" then
    let content := pyStrip ⟨afterFirst ':' clean_line.data⟩
    ⟨st.status,
      if content ≠ "" then st.evidence_lines ++ [content] else st.evidence_lines,
      true⟩
  else if st.parsing_evidence then
    ⟨st.status, st.evidence_lines ++ [clean_line], st.parsing_evidence⟩
  else st

/-- The parsing stage of the gate (researcher.py 691-726): run the line loop
over the response split on newlines, join and strip the evidence, apply the
keyword fallback when no `Status:` line was recognized, and downgrade a
malformed status (one still containing `|`) to `HYPOTHESIS`. Returns
(status, evidence_text) as they stand before the safeguard rules. -/
def parseFactCheck (verification_response : String) : String × String :=
  let final := (splitOnChar '\n' verification_response.data).foldl
    (fun st l => processLine st ⟨l⟩) ⟨"UNKNOWN", [], false⟩
  let evidence_text := pyStrip (joinLines final.evidence_lines)
  let status :=
    if final.status = "UNKNOWN" then
      if pyContains verification_response "VERIFIED_SYNTHESIS" then "VERIFIED_SYNTHESIS"
      else if pyContains verification_response "VERIFIED" then "VERIFIED"
      else if pyContains verification_response "UNSUPPORTED" then "UNSUPPORTED"
      else if pyContains verification_response "HYPOTHESIS" then "HYPOTHESIS"
      else final.status
    else final.status
  let status := if pyContains status "|" then "HYPOTHESIS" else status
  (status, evidence_text)

/-- The safeguard stage of the gate (researcher.py 728-736): any status
beginning with `VERIFIED` is downgraded to `UNSUPPORTED` when the evidence is
empty, shorter than 10 characters, or ends with the bare `quotes:` label,
and otherwise when the evidence quotes the reflection or discussion instead
of the paper. -/
def factCheckVerdict (verification_response : String) : String × String :=
  let parsed := parseFactCheck verification_response
  let status := parsed.1
  let evidence_text := parsed.2
  let clean_evidence := pyStrip (pyLower evidence_text)
  let status :=
    if pyStarts status "VERIFIED" then
      if evidence_text = "" ∨ pyLen evidence_text < 10 ∨
          pyEnds clean_evidence "quotes:" then "UNSUPPORTED"
      else if pyStarts clean_evidence "reflection:" ∨
          pyStarts clean_evidence "discussion:" ∨
          pyContains clean_evidence "based on the provided observations" then
        "UNSUPPORTED"
      else status
    else status
  (status, evidence_text)

/-- The memory text committed for a kept conclusion (researcher.py 748-749):
`HYPOTHESIS`-status conclusions get the `"[HYPOTHESIS] "` tag. -/
def discussText (selfName otherName status discussion_result : String) : String :=
  (if pyContains status "HYPOTHESIS" then "[HYPOTHESIS] " else "") ++
    "Discussion (" ++ selfName ++ " vs " ++ otherName ++ "): " ++
    discussion_result

/-- Outcome of the commit step: both participants' streams and the reports
written to the durable store (`db.save_report(author, kind, content)`). -/
structure DiscussOutcome where
  selfMem : MemoryStream
  otherMem : MemoryStream
  reports : List (String × String × String)

/-- Embedding of the commit decision of `Researcher.discuss_with`
(researcher.py 742-755): a verdict of exactly `UNSUPPORTED` returns before
anything is written; every other verdict commits the (possibly tagged)
conclusion to both participants' memory streams and saves a discussion
report when a durable store is attached. -/
def discussCommit (selfName otherName : String) (selfMem otherMem : MemoryStream)
    (hasDb : Bool) (status discussion_result : String) (time : Int) :
    DiscussOutcome :=
  if status = "UNSUPPORTED" then ⟨selfMem, otherMem, []⟩
  else
    let memory_text := discussText selfName otherName status discussion_result
    ⟨applyAdd selfMem memory_text time,
      applyAdd otherMem memory_text time,
      if hasDb then [(selfName ++ " & " ++ otherName, "discussion", discussion_result)]
      else []⟩

/-- The gate and the commit step composed, as `discuss_with` runs them on the
fact-checker's response (researcher.py 689-755). -/
def discussOutcome (selfName otherName : String) (selfMem otherMem : MemoryStream)
    (hasDb : Bool) (verification_response discussion_result : String)
    (time : Int) : DiscussOutcome :=
  discussCommit selfName otherName selfMem otherMem hasDb
    (factCheckVerdict verification_response).1 discussion_result time

/-! ### Concrete collaborator instances used by witnesses and counterexamples -/

/-- A generative client that rates every memory 5 and has no embeddings. -/
def memLLM : LLMClient := ⟨fun _ => "5", fun _ => []⟩

/-- A generative client whose importance rating is the out-of-range `"11"`. -/
def llm11 : LLMClient := ⟨fun _ => "11", fun _ => []⟩

/-- A vector cache whose every call raises. -/
def failCache : VectorCache :=
  ⟨fun _ _ _ _ => Except.error "down", fun _ _ => Except.error "down"⟩

/-- A durable store whose INSERT always raises. -/
def failDb : Database := ⟨false, fun _ _ _ _ _ _ => Except.error "db down"⟩

/-- A fresh stream with no cache and no durable store. -/
def baseStream : MemoryStream := ⟨memLLM, none, none, "Agent", []⟩

/-- The stream `baseStream` after adding "A" at time 10 and then "B" at time 5:
the creation times arrive out of insertion order. -/
def streamAB : MemoryStream := baseStream.addAll [("A", 10), ("B", 5)]

/-- A fresh stream whose cache and durable store both always fail. -/
def failStream : MemoryStream := ⟨memLLM, some failCache, some failDb, "A", []⟩

/-- A fresh stream with the out-of-range importance client. -/
def stream11 : MemoryStream := ⟨llm11, none, none, "A", []⟩

/-- A stored record for the retrieval fallback witness. -/
def someMem : MemoryObject := ⟨"m1", 1, 5, [], 1⟩

/-- A stream holding one record whose cache always raises. -/
def retrStream : MemoryStream := ⟨memLLM, some failCache, none, "A", [someMem]⟩

/-- An extracted record whose check is Causal + Observational but whose
severity the model set to Low. -/
def entryLow : JEntry :=
  JEntry.record (CheckField.dictVal
    ⟨some "Causal", some "Observational", none, none, some "Low"⟩) []

/-- A DrMatrix whose audit collaborator fails (returns the empty string,
the failure value of `LLM.generate`) and whose refine step returns a
non-empty record list distinct from the draft. -/
def emptyAuditMatrix : DrMatrix := ⟨fun _ => [], fun _ _ => "", fun _ _ _ => [entryLow]⟩

/-- A DrMatrix whose audit passes and whose draft is `entryLow`. -/
def passMatrix : DrMatrix := ⟨fun _ => [entryLow], fun _ _ => "PASS", fun _ _ _ => []⟩

/-- A DrMatrix whose audit critique reports a failure but happens to contain
the characters `PASS` inside the word `SURPASSES`. -/
def surpassMatrix : DrMatrix :=
  ⟨fun _ => [entryLow], fun _ _ => "FAIL: the summary SURPASSES the evidence", fun _ _ _ => []⟩

/-! ### Shared helper lemmas -/

/-- Running `add_memory` for its state appends exactly the fresh record. -/
theorem applyAdd_eq (s : MemoryStream) (d : String) (t : Int) :
    applyAdd s d t = { s with memories := s.memories ++ [s.llm.freshMemory d t] } :=
  rfl

/-- A sequence of `add_memory` calls appends the corresponding fresh records
in call order and changes nothing else about the stream. -/
theorem addAll_eq (s : MemoryStream) (items : List (String × Int)) :
    s.addAll items =
      { s with memories :=
          s.memories ++ items.map (fun it => s.llm.freshMemory it.1 it.2) } := by
  induction items generalizing s with
  | nil => simp [MemoryStream.addAll]
  | cons it rest ih =>
    show (applyAdd s it.1 it.2).addAll rest = _
    rw [ih, applyAdd_eq]
    simp

/-- On the accept path `extract_claims` yields the post-processed draft with zero refine
invocations. -/
theorem extract_claims_pass (m : DrMatrix) (chunk : String)
    (h : pyContains (m.auditFn (m.draftFn chunk) chunk) "PASS" = true) :
    m.extract_claims chunk = (enforce_deterministic_logic (m.draftFn chunk), 0) := by
  simp [DrMatrix.extract_claims, h]

/-- On the refine path `extract_claims` yields the post-processed refine output with one
refine invocation. -/
theorem extract_claims_fail (m : DrMatrix) (chunk : String)
    (h : pyContains (m.auditFn (m.draftFn chunk) chunk) "PASS" = false) :
    m.extract_claims chunk =
      (enforce_deterministic_logic
        (m.refineFn (m.draftFn chunk) (m.auditFn (m.draftFn chunk) chunk) chunk), 1) := by
  simp [DrMatrix.extract_claims, h]

/-- The record list of `extract_claims` is the post-processing of the chosen
payload. -/
theorem extract_claims_fst (m : DrMatrix) (chunk : String) :
    (m.extract_claims chunk).1 = enforce_deterministic_logic (m.selectedOutput chunk) := by
  by_cases h : pyContains (m.auditFn (m.draftFn chunk) chunk) "PASS" = true
  · rw [extract_claims_pass m chunk h]
    unfold DrMatrix.selectedOutput
    rw [if_pos h]
  · have hf : pyContains (m.auditFn (m.draftFn chunk) chunk) "PASS" = false := by
      simpa using h
    rw [extract_claims_fail m chunk hf]
    unfold DrMatrix.selectedOutput
    rw [if_neg (by simp [hf])]

/-- What `get_recent` returns on any stream: a descending-creation-time
selection whose members dominate (by creation time) everything left out, of
length `min n |memories|`. -/
theorem get_recent_spec (s : MemoryStream) (n : Nat) :
    ∃ rest : List MemoryObject,
      (s.get_recent n ++ rest).Perm s.memories ∧
      List.Pairwise (fun a b => b.creation_time ≤ a.creation_time) (s.get_recent n) ∧
      (∀ x ∈ s.get_recent n, ∀ y ∈ rest, y.creation_time ≤ x.creation_time) ∧
      (s.get_recent n).length = min n s.memories.length := by
  have htrans : ∀ a b c : MemoryObject,
      (fun a b : MemoryObject => decide (b.creation_time ≤ a.creation_time)) a b = true →
      (fun a b : MemoryObject => decide (b.creation_time ≤ a.creation_time)) b c = true →
      (fun a b : MemoryObject => decide (b.creation_time ≤ a.creation_time)) a c = true := by
    intro a b c h1 h2
    simp only [decide_eq_true_eq] at *
    exact le_trans h2 h1
  have htotal : ∀ a b : MemoryObject,
      ((fun a b : MemoryObject => decide (b.creation_time ≤ a.creation_time)) a b ||
        (fun a b : MemoryObject => decide (b.creation_time ≤ a.creation_time)) b a) = true := by
    intro a b
    simp only [Bool.or_eq_true, decide_eq_true_eq]
    exact le_total b.creation_time a.creation_time
  have hpair := List.sorted_mergeSort htrans htotal s.memories
  have hperm := List.mergeSort_perm s.memories
    (fun a b => decide (b.creation_time ≤ a.creation_time))
  have hpair2 : List.Pairwise (fun a b : MemoryObject => b.creation_time ≤ a.creation_time)
      (s.memories.mergeSort (fun a b => decide (b.creation_time ≤ a.creation_time))) :=
    hpair.imp (fun h => by simpa using h)
  refine ⟨(s.memories.mergeSort
    (fun a b => decide (b.creation_time ≤ a.creation_time))).drop n, ?_, ?_, ?_, ?_⟩
  · show (List.take n _ ++ List.drop n _).Perm _
    rw [List.take_append_drop]
    exact hperm
  · have hsplit := hpair2
    rw [← List.take_append_drop n (s.memories.mergeSort
      (fun a b => decide (b.creation_time ≤ a.creation_time)))] at hsplit
    exact (List.pairwise_append.mp hsplit).1
  · intro x hx y hy
    have hsplit := hpair2
    rw [← List.take_append_drop n (s.memories.mergeSort
      (fun a b => decide (b.creation_time ≤ a.creation_time)))] at hsplit
    exact (List.pairwise_append.mp hsplit).2.2 x hx y hy
  · show (List.take n _).length = _
    rw [List.length_take, hperm.length_eq]

/-! ### Claim theorems -/

unseal List.merge List.mergeSort in
/-- Claim C6 (counterexample): after adding "A" at time 10 and then "B" at
time 5, the single most recently added record is "B", yet `get_recent 1`
returns "A" — `get_recent` selects by greatest creation time, not by
recency of addition, so with caller-supplied out-of-order times it does not
return "the n most recently added records". -/
theorem C6_counterexample :
    streamAB.memories.map (fun m => m.description) = ["A", "B"] ∧
    (streamAB.get_recent 1).map (fun m => m.description) = ["A"] := by
  constructor <;> decide

/-- Claim C6 (amended): for every sequence of `add_memory` calls — under any
vector-cache/durable-store configuration, since the stream is arbitrary —
the in-process list holds exactly the added records in call order, and
`get_recent n` returns `min n (stream size)` records in descending
creation-time order whose creation times dominate every record left out
(i.e. the n records of greatest creation time; this coincides with "the n
most recently added" only when creation times are nondecreasing in call
order). -/
theorem C6_get_recent_by_creation_time (s0 : MemoryStream)
    (items : List (String × Int)) (n : Nat) :
    (s0.addAll items).memories =
      s0.memories ++ items.map (fun it => s0.llm.freshMemory it.1 it.2) ∧
    ∃ rest : List MemoryObject,
      ((s0.addAll items).get_recent n ++ rest).Perm (s0.addAll items).memories ∧
      List.Pairwise (fun a b => b.creation_time ≤ a.creation_time)
        ((s0.addAll items).get_recent n) ∧
      (∀ x ∈ (s0.addAll items).get_recent n, ∀ y ∈ rest,
        y.creation_time ≤ x.creation_time) ∧
      ((s0.addAll items).get_recent n).length =
        min n (s0.addAll items).memories.length := by
  constructor
  · rw [addAll_eq]
  · exact get_recent_spec (s0.addAll items) n

/-- Claim C2 (confirmed): `add_memory` never lets a cache or durable-store
failure escape to the caller — it returns normally with the record appended
to the in-process list, and a failing cache write or database insert only
contributes its log line. -/
theorem C2_add_memory_best_effort (s : MemoryStream) (d : String) (t : Int) :
    ∃ logs, s.add_memory d t =
        Except.ok ({ s with memories := s.memories ++ [s.llm.freshMemory d t] }, logs) ∧
      (∀ c e, s.redis = some c →
        c.hset d (s.calculate_importance d) t (s.llm.get_embedding d) = Except.error e →
        ("Redis save failed: " ++ e) ∈ logs) ∧
      (∀ db e, s.db = some db → db.demo_mode = false →
        db.insertMemory s.agent_name d (s.calculate_importance d)
          (s.llm.get_embedding d) t t = Except.error e →
        ("Error saving memory: " ++ e) ∈ logs) := by
  refine ⟨_, rfl, ?_, ?_⟩
  · intro c e hc he
    simp only [MemoryStream.calculate_importance] at he
    simp [hc, he]
  · intro db e hdb hdemo hins
    simp only [MemoryStream.calculate_importance] at hins
    simp [hdb, Database.save_memory, hdemo, hins]

/-- Claim C2 (witness): on a stream whose cache write and database insert
both raise, `add_memory` still returns normally with the record appended,
and both failures appear in the log. -/
theorem C2_witness :
    ∃ logs, failStream.add_memory "m" 0 =
        Except.ok ({ failStream with
          memories := failStream.memories ++ [failStream.llm.freshMemory "m" 0] }, logs) ∧
      ("Redis save failed: down") ∈ logs ∧
      ("Error saving memory: db down") ∈ logs := by
  obtain ⟨logs, h1, h2, h3⟩ := C2_add_memory_best_effort failStream "m" 0
  exact ⟨logs, h1, h2 failCache "down" rfl rfl, h3 failDb "db down" rfl rfl rfl⟩

/-- Claim C9 (counterexample): when the model answers "11" to the importance
prompt, the record is created with importance 11, which is not in the range
1-10 — the code never clamps the parsed rating. -/
theorem C9_counterexample :
    (applyAdd stream11 "x" 0).memories.map (fun m => m.importance) = [11] ∧
    ¬ ((11 : ℚ) ≤ 10) := by
  constructor <;> decide

/-- Claim C9 (amended): each `add_memory` computes the record's importance by
a single deterministic model call, taking the parsed numeric value exactly
as returned (with no clamping to 1-10) and defaulting to 5.0 when parsing
fails; the importance is fixed at creation — the append leaves every
previously stored record untouched, and no other operation rewrites the
in-process list. -/
theorem C9_importance_parse_or_default (s : MemoryStream) (d : String) (t : Int) :
    ∃ logs, s.add_memory d t =
        Except.ok ({ s with memories := s.memories ++ [s.llm.freshMemory d t] }, logs) ∧
      (s.llm.freshMemory d t).importance = s.calculate_importance d ∧
      (∀ v, parsePyFloat (pyStrip (s.llm.generate (importancePrompt d))) = some v →
        s.calculate_importance d = v) ∧
      (parsePyFloat (pyStrip (s.llm.generate (importancePrompt d))) = none →
        s.calculate_importance d = 5) := by
  refine ⟨_, rfl, rfl, ?_, ?_⟩
  · intro v hv
    simp [MemoryStream.calculate_importance, calcImportance, hv]
  · intro hn
    simp [MemoryStream.calculate_importance, calcImportance, hn]

/-- Claim C9 (witness): on the client answering "11" the computed importance
is exactly 11 (outside 1-10) and the record carries it. -/
theorem C9_witness :
    ∃ logs, stream11.add_memory "x" 0 =
        Except.ok ({ stream11 with
          memories := stream11.memories ++ [stream11.llm.freshMemory "x" 0] }, logs) ∧
      stream11.calculate_importance "x" = 11 ∧
      ¬ (stream11.calculate_importance "x" ≤ 10) := by
  obtain ⟨logs, h1, _, h3, _⟩ := C9_importance_parse_or_default stream11 "x" 0
  have h11 : stream11.calculate_importance "x" = 11 := h3 11 (by decide)
  exact ⟨logs, h1, h11, by rw [h11]; decide⟩

/-- Claim C7 (confirmed): when the vector cache is absent, or every KNN
search against it raises, `retrieve` returns exactly `get_recent top_k`. -/
theorem C7_retrieve_falls_back (s : MemoryStream) (q : String) (t : Int) (k : Nat)
    (hfail : ∀ c, s.redis = some c → ∀ v n, ∃ e, c.knn_search v n = Except.error e) :
    s.retrieve q t k = s.get_recent k := by
  match hr : s.redis with
  | none => simp [MemoryStream.retrieve, hr]
  | some c =>
    obtain ⟨e, he⟩ := hfail c hr (s.llm.get_embedding q) k
    simp [MemoryStream.retrieve, hr, he]

/-- Claim C7 (witness): on a one-record stream whose cache raises on every
call, `retrieve` equals `get_recent`. -/
theorem C7_witness : retrStream.retrieve "q" 0 3 = retrStream.get_recent 3 :=
  C7_retrieve_falls_back retrStream "q" 0 3 (fun c hc v n => by
    have hcf : failCache = c := Option.some.inj hc
    subst hcf
    exact ⟨"down", rfl⟩)

/-- Claim C1 (counterexample): with the audit collaborator returning the
empty string (the failure value of `LLM.generate`), `extract_claims` takes
the refine path — the refine collaborator is invoked once, and the final
output is not the post-processed draft — contradicting "the draft path is
taken and no refine call is made". -/
theorem C1_counterexample :
    emptyAuditMatrix.auditFn (emptyAuditMatrix.draftFn "t") "t" = "" ∧
    (emptyAuditMatrix.extract_claims "t").2 = 1 ∧
    (emptyAuditMatrix.extract_claims "t").1 ≠
      enforce_deterministic_logic (emptyAuditMatrix.draftFn "t") := by
  refine ⟨rfl, rfl, ?_⟩
  decide

/-- Claim C1 (amended): if the audit step produces no output (the generative
call returns the empty string), the protocol treats it as a failed audit:
the refine collaborator is invoked exactly once with the empty critique, and
its post-processed output is the final result. -/
theorem C1_empty_audit_refines (m : DrMatrix) (chunk : String)
    (h : m.auditFn (m.draftFn chunk) chunk = "") :
    m.extract_claims chunk =
      (enforce_deterministic_logic (m.refineFn (m.draftFn chunk) "" chunk), 1) := by
  have hf : pyContains (m.auditFn (m.draftFn chunk) chunk) "PASS" = false := by
    rw [h]
    decide
  rw [extract_claims_fail m chunk hf, h]

/-- Claim C1 (witness): the amended behavior at the concrete failing-audit
instance. -/
theorem C1_witness :
    emptyAuditMatrix.extract_claims "t" =
      (enforce_deterministic_logic
        (emptyAuditMatrix.refineFn (emptyAuditMatrix.draftFn "t") "" "t"), 1) :=
  C1_empty_audit_refines emptyAuditMatrix "t" rfl

/-- Claim C3 (counterexample): with a passing critique and a draft holding a
Causal + Observational record whose severity is "Low", the refine
collaborator is indeed never invoked, but the final output differs from the
draft — the unconditional deterministic post-processing pass rewrites the
severity — so "the final output equals the draft exactly" is false. -/
theorem C3_counterexample :
    pyContains (passMatrix.auditFn (passMatrix.draftFn "t") "t") "PASS" = true ∧
    (passMatrix.extract_claims "t").2 = 0 ∧
    (passMatrix.extract_claims "t").1 ≠ passMatrix.draftFn "t" := by
  refine ⟨rfl, rfl, ?_⟩
  decide

/-- Claim C3 (amended): whenever the audit critique contains the pass
signal, the refine collaborator is invoked zero times and the final output
equals the deterministic post-processing of the draft (which coincides with
the draft itself exactly when the post-processing rules change nothing). -/
theorem C3_pass_keeps_draft (m : DrMatrix) (chunk : String)
    (h : pyContains (m.auditFn (m.draftFn chunk) chunk) "PASS" = true) :
    m.extract_claims chunk = (enforce_deterministic_logic (m.draftFn chunk), 0) :=
  extract_claims_pass m chunk h

/-- Claim C3 (witness): the amended behavior at the concrete passing
instance. -/
theorem C3_witness :
    passMatrix.extract_claims "t" =
      (enforce_deterministic_logic (passMatrix.draftFn "t"), 0) :=
  C3_pass_keeps_draft passMatrix "t" rfl

/-- Claim C10 (confirmed): the audit decision is a bare substring test —
every critique containing the characters "PASS" anywhere takes the accept
path with zero refine invocations, and every critique without that substring
triggers exactly one refinement whose post-processed output is final. -/
theorem C10_pass_substring_decision (m : DrMatrix) (chunk : String) :
    (pyContains (m.auditFn (m.draftFn chunk) chunk) "PASS" = true →
      m.extract_claims chunk = (enforce_deterministic_logic (m.draftFn chunk), 0)) ∧
    (pyContains (m.auditFn (m.draftFn chunk) chunk) "PASS" = false →
      m.extract_claims chunk =
        (enforce_deterministic_logic
          (m.refineFn (m.draftFn chunk) (m.auditFn (m.draftFn chunk) chunk) chunk), 1)) :=
  ⟨extract_claims_pass m chunk, extract_claims_fail m chunk⟩

/-- Claim C10 (witness): a critique that reports a failure but contains
"PASS" inside the word "SURPASSES" still takes the accept path and skips
refinement. -/
theorem C10_witness :
    pyContains (surpassMatrix.auditFn (surpassMatrix.draftFn "t") "t") "PASS" = true ∧
    surpassMatrix.extract_claims "t" =
      (enforce_deterministic_logic (surpassMatrix.draftFn "t"), 0) :=
  ⟨by decide, (C10_pass_substring_decision surpassMatrix "t").1 (by decide)⟩

/-- Claim C8 (confirmed): every record reaching the deterministic
post-processing pass — from the draft path or the refine path alike — whose
`epistemic_check` has `title_claim_type` "causal" and `study_design_type`
"observational" (case-insensitively) ends up with `gap_severity = "High"`,
whatever severity the model had produced. -/
theorem C8_causal_observational_high (m : DrMatrix) (chunk : String)
    (c : EpistemicCheck) (rest : List (String × String))
    (hmem : JEntry.record (CheckField.dictVal c) rest ∈ m.selectedOutput chunk)
    (hclaim : pyLower (c.title_claim_type.getD "") = "causal")
    (hdesign : pyLower (c.study_design_type.getD "") = "observational") :
    (enforceCheck c).gap_severity = some "High" ∧
    JEntry.record (CheckField.dictVal (enforceCheck c)) rest ∈
      (m.extract_claims chunk).1 := by
  have hsev : (enforceCheck c).gap_severity = some "High" := by
    simp only [enforceCheck]
    rw [hclaim, hdesign]
    by_cases h1 : (pyContains (pyLower (c.intervention_type.getD "")) "behavioral" &&
        pyContains (pyLower (c.data_source_type.getD "")) "self-reported") = true
    · simp [h1]
    · have e2 : (pyContains "causal" "associat" &&
          pyContains "observational" "observational") = false := by decide
      have e3 : (pyContains "causal" "causal" &&
          pyContains "observational" "observational") = true := by decide
      simp [h1, e2, e3]
  refine ⟨hsev, ?_⟩
  rw [extract_claims_fst]
  exact List.mem_map_of_mem enforceEntry hmem

/-- Claim C8 (witness): the Causal + Observational record marked "Low" by
the model is a member of the accepted draft, and the final output holds it
with severity "High". -/
theorem C8_witness :
    (enforceCheck ⟨some "Causal", some "Observational", none, none, some "Low"⟩).gap_severity
        = some "High" ∧
    JEntry.record (CheckField.dictVal
        (enforceCheck ⟨some "Causal", some "Observational", none, none, some "Low"⟩)) [] ∈
      (passMatrix.extract_claims "t").1 :=
  C8_causal_observational_high passMatrix "t"
    ⟨some "Causal", some "Observational", none, none, some "Low"⟩ []
    (by decide) (by decide) (by decide)

/-- Claim C4 (confirmed): a parsed verdict of `UNSUPPORTED` discards the
conclusion entirely — both participants' streams are returned untouched and
nothing is persisted — while every other verdict (including `HYPOTHESIS`,
whose text carries the `"[HYPOTHESIS] "` tag via `discussText`) is committed
to both participants' memory streams, with a report saved when a durable
store is attached. -/
theorem C4_unsupported_discards (resp nameA nameB : String)
    (sm om : MemoryStream) (hasDb : Bool) (dres : String) (t : Int) :
    ((factCheckVerdict resp).1 = "UNSUPPORTED" →
      discussOutcome nameA nameB sm om hasDb resp dres t = ⟨sm, om, []⟩) ∧
    ((factCheckVerdict resp).1 ≠ "UNSUPPORTED" →
      (discussOutcome nameA nameB sm om hasDb resp dres t).selfMem.memories =
        sm.memories ++ [sm.llm.freshMemory
          (discussText nameA nameB (factCheckVerdict resp).1 dres) t] ∧
      (discussOutcome nameA nameB sm om hasDb resp dres t).otherMem.memories =
        om.memories ++ [om.llm.freshMemory
          (discussText nameA nameB (factCheckVerdict resp).1 dres) t] ∧
      (discussOutcome nameA nameB sm om hasDb resp dres t).reports =
        (if hasDb then [(nameA ++ " & " ++ nameB, "discussion", dres)] else [])) := by
  constructor
  · intro h
    simp [discussOutcome, discussCommit, h]
  · intro h
    simp [discussOutcome, discussCommit, h, applyAdd_eq]

/-- Claim C4 (witness): the empty-evidence VERIFIED response is gated to
`UNSUPPORTED` and discarded without touching either stream; a `HYPOTHESIS`
response is committed to the initiating stream with the tagged text. -/
theorem C4_witness :
    discussOutcome "A" "B" baseStream baseStream true
        "Status: [VERIFIED]\nEvidence: " "joint claim" 0 =
      ⟨baseStream, baseStream, []⟩ ∧
    (discussOutcome "A" "B" baseStream baseStream true
        "Status: HYPOTHESIS\nEvidence: a strong enough evidence line" "joint claim" 0).selfMem.memories =
      baseStream.memories ++ [baseStream.llm.freshMemory
        (discussText "A" "B"
          (factCheckVerdict "Status: HYPOTHESIS\nEvidence: a strong enough evidence line").1
          "joint claim") 0] ∧
    discussText "A" "B"
        (factCheckVerdict "Status: HYPOTHESIS\nEvidence: a strong enough evidence line").1
        "joint claim" =
      "[HYPOTHESIS] Discussion (A vs B): joint claim" := by
  refine ⟨?_, ?_, by decide⟩
  · exact (C4_unsupported_discards "Status: [VERIFIED]\nEvidence: " "A" "B"
      baseStream baseStream true "joint claim" 0).1 (by decide)
  · exact ((C4_unsupported_discards "Status: HYPOTHESIS\nEvidence: a strong enough evidence line"
      "A" "B" baseStream baseStream true "joint claim" 0).2 (by decide)).1

/-- Claim C5 (confirmed): whenever the parsed status begins with `VERIFIED`
and the captured evidence is empty, shorter than 10 characters, or ends with
the bare `quotes:` label, the safeguard downgrades the verdict to
`UNSUPPORTED`. -/
theorem C5_verified_needs_evidence (resp : String)
    (hv : pyStarts (parseFactCheck resp).1 "VERIFIED" = true)
    (hev : (parseFactCheck resp).2 = "" ∨ pyLen (parseFactCheck resp).2 < 10 ∨
      pyEnds (pyStrip (pyLower (parseFactCheck resp).2)) "quotes:" = true) :
    (factCheckVerdict resp).1 = "UNSUPPORTED" := by
  simp only [factCheckVerdict]
  rw [if_pos hv, if_pos hev]

/-- Claim C5 (witness): the input `"Status: [VERIFIED]\nEvidence: "` parses
to status `VERIFIED` with empty evidence and is gated to `UNSUPPORTED`. -/
theorem C5_witness :
    (parseFactCheck "Status: [VERIFIED]\nEvidence: ").1 = "VERIFIED" ∧
    (parseFactCheck "Status: [VERIFIED]\nEvidence: ").2 = "" ∧
    (factCheckVerdict "Status: [VERIFIED]\nEvidence: ").1 = "UNSUPPORTED" :=
  ⟨by decide, by decide,
    C5_verified_needs_evidence "Status: [VERIFIED]\nEvidence: "
      (by decide) (Or.inl (by decide))⟩

/-- Claim C6 (witness): the amended statement instantiated at the concrete
out-of-order add sequence. -/
theorem C6_witness :
    (baseStream.addAll [("A", 10), ("B", 5)]).memories =
      baseStream.memories ++
        [("A", (10 : Int)), ("B", 5)].map (fun it => baseStream.llm.freshMemory it.1 it.2) ∧
    ∃ rest : List MemoryObject,
      ((baseStream.addAll [("A", 10), ("B", 5)]).get_recent 1 ++ rest).Perm
          (baseStream.addAll [("A", 10), ("B", 5)]).memories ∧
      List.Pairwise (fun a b => b.creation_time ≤ a.creation_time)
        ((baseStream.addAll [("A", 10), ("B", 5)]).get_recent 1) ∧
      (∀ x ∈ (baseStream.addAll [("A", 10), ("B", 5)]).get_recent 1, ∀ y ∈ rest,
        y.creation_time ≤ x.creation_time) ∧
      ((baseStream.addAll [("A", 10), ("B", 5)]).get_recent 1).length =
        min 1 (baseStream.addAll [("A", 10), ("B", 5)]).memories.length :=
  C6_get_recent_by_creation_time baseStream [("A", 10), ("B", 5)] 1
